import Mathlib

/-!
Verification of the ATM session controller (`src/project.cpp`).

The C++ program is a single-threaded session state machine (`ATMController`)
over three collaborators: a bank gateway, a cash dispenser and a card reader,
each instantiated by the in-file mock classes (`MockBankGateway`,
`MockCashDispenser`, `MockCardReader`).

Shallow embedding choices:
- C++ `std::string` is `String`; C++ `int` is `Int` (no claim here exercises
  machine-integer overflow, every amount in scope is small).
- `std::map` is an association list (`List (String × α)`); `map::find` is
  `mapFind`, `map::at` (which throws `std::out_of_range` on a missing key)
  returns `Except`, and `map::operator[]` (which default-inserts `0`) is
  `mapUpsert` with default `0`.
- C++ exceptions over mutable objects become a result-and-state pair
  `Except AtmError α × Sys`: the state component records every mutation that
  happened before the throw (this is what a catching caller observes).
- `ATMController::withdraw` additionally returns the list of side-effecting
  collaborator calls it issued (`bank.debit`, `dispenser.dispenseCash`) in
  call order, so that ordering claims are expressible.
-/

/-- The typed error taxonomy.  Each constructor corresponds to one
`throw runtime_error(...)` site of the C++ source: the six controller throws,
`map::at` on an unknown account in `MockBankGateway::getBalance`, and the
internal throw of `MockCashDispenser::dispenseCash`. -/
inductive AtmError where
  | NoCardInserted
  | NotAuthenticated
  | NoAccountSelected
  | InvalidAmount
  | InsufficientFunds
  | InsufficientCash
  | UnknownAccount
  | NotEnoughAtmCash
deriving DecidableEq, Repr

/-- `std::map` lookup (`find`), as an association-list scan. -/
def mapFind {α : Type} : List (String × α) → String → Option α
  | [], _ => none
  | (k, v) :: rest, key => if k = key then some v else mapFind rest key

/-- `std::map::operator[]` followed by an update: if the key is present apply
`f` to its value, otherwise default-insert `dflt` and apply `f` to it
(C++ `m[k] -= x` is `mapUpsert m k (fun v => v - x) 0`). -/
def mapUpsert {α : Type} : List (String × α) → String → (α → α) → α → List (String × α)
  | [], k, f, dflt => [(k, f dflt)]
  | (k', v) :: rest, k, f, dflt =>
      if k' = k then (k', f v) :: rest else (k', v) :: mapUpsert rest k f dflt

/-- State of `MockBankGateway`: the registered PINs per card and the account
balances. -/
structure Bank where
  pins : List (String × String)
  balances : List (String × Int)
deriving DecidableEq, Repr

/-- State of `MockCashDispenser`: the cash on hand. -/
structure Dispenser where
  cashOnHand : Int
deriving DecidableEq, Repr

namespace MockBankGateway

/-- `MockBankGateway::validatePin`: look the card up in `pins`; true iff it is
registered and the stored PIN equals `pin`. -/
def validatePin (b : Bank) (cardNumber pin : String) : Bool :=
  match mapFind b.pins cardNumber with
  | some p => p == pin
  | none => false

/-- `MockBankGateway::getBalance`: `balances.at(accountId)` — throws
(`UnknownAccount`) when the account is absent. -/
def getBalance (b : Bank) (accountId : String) : Except AtmError Int :=
  match mapFind b.balances accountId with
  | some v => Except.ok v
  | none => Except.error AtmError.UnknownAccount

/-- `MockBankGateway::debit`: `balances[accountId] -= amount`
(default-inserts 0 when the account is absent). -/
def debit (b : Bank) (accountId : String) (amount : Int) : Bank :=
  { b with balances := mapUpsert b.balances accountId (fun v => v - amount) 0 }

/-- `MockBankGateway::credit`: `balances[accountId] += amount`
(default-inserts 0 when the account is absent). -/
def credit (b : Bank) (accountId : String) (amount : Int) : Bank :=
  { b with balances := mapUpsert b.balances accountId (fun v => v + amount) 0 }

end MockBankGateway

namespace MockCashDispenser

/-- `MockCashDispenser::hasCash`: `amount <= cashOnHand`. -/
def hasCash (d : Dispenser) (amount : Int) : Bool :=
  amount ≤ d.cashOnHand

/-- `MockCashDispenser::dispenseCash`: throws (`NotEnoughAtmCash`) when
`amount > cashOnHand`, otherwise decrements the stock. -/
def dispenseCash (d : Dispenser) (amount : Int) : Except AtmError Dispenser :=
  if amount > d.cashOnHand then Except.error AtmError.NotEnoughAtmCash
  else Except.ok { cashOnHand := d.cashOnHand - amount }

end MockCashDispenser

namespace MockCardReader

/-- `MockCardReader::readCard`: always yields the fixed card identifier. -/
def readCard : String := "CARD-1234"

end MockCardReader

/-- The controller's own session fields (`cardNumber`, `authenticated`,
`selectedAccount`), with the C++ member initializers as defaults. -/
structure ATMState where
  cardNumber : String
  authenticated : Bool
  selectedAccount : String
deriving DecidableEq, Repr

/-- The whole system a session call can observe and mutate: the controller's
session fields plus the state of the two stateful collaborators. -/
structure Sys where
  atm : ATMState
  bank : Bank
  disp : Dispenser
deriving DecidableEq, Repr

/-- A freshly constructed `ATMController` over collaborators in state
`b`, `d`: empty card, unauthenticated, no account. -/
def sysInit (b : Bank) (d : Dispenser) : Sys :=
  { atm := { cardNumber := "", authenticated := false, selectedAccount := "" },
    bank := b, disp := d }

/-- Events recording the side-effecting collaborator calls issued by
`withdraw`, in call order. -/
inductive Ev where
  | evDebit (accountId : String) (amount : Int)
  | evDispense (amount : Int)
deriving DecidableEq, Repr

namespace ATMController

/-- `ATMController::insertCard`: read the card, clear authentication and the
selected account.  Never throws (the mock reader cannot fail). -/
def insertCard (s : Sys) : Sys :=
  { s with atm := { cardNumber := MockCardReader.readCard,
                    authenticated := false, selectedAccount := "" } }

/-- `ATMController::enterPin`: throws `NoCardInserted` when no card is held;
otherwise sets `authenticated` to the gateway's `validatePin` result and
returns it. -/
def enterPin (pin : String) (s : Sys) : Except AtmError Bool × Sys :=
  if s.atm.cardNumber = "" then (Except.error AtmError.NoCardInserted, s)
  else
    let a := MockBankGateway.validatePin s.bank s.atm.cardNumber pin
    (Except.ok a, { s with atm := { s.atm with authenticated := a } })

/-- `ATMController::selectAccount`: throws `NotAuthenticated` unless
authenticated; otherwise stores `acctId` verbatim. -/
def selectAccount (acctId : String) (s : Sys) : Except AtmError Unit × Sys :=
  if s.atm.authenticated = false then (Except.error AtmError.NotAuthenticated, s)
  else (Except.ok (), { s with atm := { s.atm with selectedAccount := acctId } })

/-- `ATMController::getBalance`: throws `NoAccountSelected` when
`selectedAccount` is empty; otherwise returns the gateway's balance,
propagating the gateway's unknown-account failure. -/
def getBalance (s : Sys) : Except AtmError Int × Sys :=
  if s.atm.selectedAccount = "" then (Except.error AtmError.NoAccountSelected, s)
  else
    match MockBankGateway.getBalance s.bank s.atm.selectedAccount with
    | Except.ok v => (Except.ok v, s)
    | Except.error e => (Except.error e, s)

/-- `ATMController::deposit`: `NoAccountSelected` when no account is selected,
then `InvalidAmount` when `amount <= 0`, otherwise credits the account. -/
def deposit (amount : Int) (s : Sys) : Except AtmError Unit × Sys :=
  if s.atm.selectedAccount = "" then (Except.error AtmError.NoAccountSelected, s)
  else if amount ≤ 0 then (Except.error AtmError.InvalidAmount, s)
  else (Except.ok (),
        { s with bank := MockBankGateway.credit s.bank s.atm.selectedAccount amount })

/-- `ATMController::withdraw`: `NoAccountSelected`, then `InvalidAmount`
(`amount <= 0`), then reads the balance (propagating a gateway failure),
then `InsufficientFunds` (`amount > bal`), then `InsufficientCash`
(`!hasCash`), then debits the account and dispenses, in that order.
The third component lists the side-effecting collaborator calls issued. -/
def withdraw (amount : Int) (s : Sys) : Except AtmError Unit × Sys × List Ev :=
  if s.atm.selectedAccount = "" then (Except.error AtmError.NoAccountSelected, s, [])
  else if amount ≤ 0 then (Except.error AtmError.InvalidAmount, s, [])
  else
    match MockBankGateway.getBalance s.bank s.atm.selectedAccount with
    | Except.error e => (Except.error e, s, [])
    | Except.ok bal =>
      if amount > bal then (Except.error AtmError.InsufficientFunds, s, [])
      else if ! MockCashDispenser.hasCash s.disp amount then
        (Except.error AtmError.InsufficientCash, s, [])
      else
        let s1 := { s with bank := MockBankGateway.debit s.bank s.atm.selectedAccount amount }
        match MockCashDispenser.dispenseCash s1.disp amount with
        | Except.error e => (Except.error e, s1, [Ev.evDebit s.atm.selectedAccount amount])
        | Except.ok d =>
            (Except.ok (), { s1 with disp := d },
             [Ev.evDebit s.atm.selectedAccount amount, Ev.evDispense amount])

/-- `ATMController::ejectCard`: instructs the reader to eject (a no-op in the
mock) and clears all three session fields.  Never throws. -/
def ejectCard (s : Sys) : Sys :=
  { s with atm := { cardNumber := "", authenticated := false, selectedAccount := "" } }

end ATMController

/-- The controller's public operations, as data, for quantifying over call
sequences. -/
inductive Op where
  | insertCard
  | enterPin (pin : String)
  | selectAccount (acctId : String)
  | getBalance
  | deposit (amount : Int)
  | withdraw (amount : Int)
  | ejectCard
deriving DecidableEq, Repr

/-- Run one operation, keeping the state (whether the call succeeded or
threw) and discarding any returned value. -/
def runOp : Op → Sys → Except AtmError Unit × Sys
  | Op.insertCard, s => (Except.ok (), ATMController.insertCard s)
  | Op.enterPin pin, s =>
      match ATMController.enterPin pin s with
      | (Except.ok _, s') => (Except.ok (), s')
      | (Except.error e, s') => (Except.error e, s')
  | Op.selectAccount a, s => ATMController.selectAccount a s
  | Op.getBalance, s =>
      match ATMController.getBalance s with
      | (Except.ok _, s') => (Except.ok (), s')
      | (Except.error e, s') => (Except.error e, s')
  | Op.deposit n, s => ATMController.deposit n s
  | Op.withdraw n, s =>
      match ATMController.withdraw n s with
      | (r, s', _) => (r, s')
  | Op.ejectCard, s => (Except.ok (), ATMController.ejectCard s)

/-- Run a call sequence, threading the state through (each call's outcome is
caught by the driver, as in `main`'s try/catch, and the session continues). -/
def runOps : List Op → Sys → Sys
  | [], s => s
  | op :: rest, s => runOps rest (runOp op s).2

/-- The spec's claimed session invariant: a non-empty `selectedAccount`
implies `authenticated`. -/
def sessionInv (a : ATMState) : Bool :=
  (a.selectedAccount == "") || a.authenticated

/-- The mock gateway of `main`: card `CARD-1234` with PIN `4321`, account
`ACC-111` with balance 100. -/
def mockBank : Bank :=
  { pins := [("CARD-1234", "4321")], balances := [("ACC-111", 100)] }

/-- The mock dispenser of `main`: 200 of stock. -/
def mockDispenser : Dispenser := { cashOnHand := 200 }

deriving instance DecidableEq for Except

/-- Whether a call sequence contains an `enterPin` call. -/
def hasEnterPin : List Op → Bool
  | [] => false
  | Op.enterPin _ :: _ => true
  | _ :: rest => hasEnterPin rest

/-- Whether no `enterPin` call occurs after a `selectAccount` call in the
sequence (once some account has been selected, the PIN is never re-entered). -/
def noEnterPinAfterSelect : List Op → Bool
  | [] => true
  | Op.selectAccount _ :: rest => ! hasEnterPin rest
  | _ :: rest => noEnterPinAfterSelect rest

/-- The system as `main` constructs it. -/
def sysMock : Sys := sysInit mockBank mockDispenser

/-- `main` scenario: after `atm.insertCard()`. -/
def scInsert : Sys := ATMController.insertCard sysMock

/-- `main` scenario: `atm.enterPin("0000")` (the wrong PIN). -/
def scPinWrong : Except AtmError Bool × Sys := ATMController.enterPin "0000" scInsert

/-- `main` scenario: `atm.enterPin("4321")` (the right PIN). -/
def scPinRight : Except AtmError Bool × Sys := ATMController.enterPin "4321" scPinWrong.2

/-- `main` scenario: `atm.selectAccount("ACC-111")`. -/
def scSelect : Except AtmError Unit × Sys := ATMController.selectAccount "ACC-111" scPinRight.2

/-- `main` scenario: `atm.deposit(50)`. -/
def scDeposit : Except AtmError Unit × Sys := ATMController.deposit 50 scSelect.2

/-- `main` scenario: `atm.withdraw(70)`. -/
def scWithdraw : Except AtmError Unit × Sys × List Ev := ATMController.withdraw 70 scDeposit.2

/-- A session over the mock collaborators with `ACC-111` selected
(witness state for universally quantified theorems). -/
def wSel : Sys :=
  { atm := { cardNumber := "CARD-1234", authenticated := true, selectedAccount := "ACC-111" },
    bank := mockBank, disp := mockDispenser }

/-- An authenticated session over the mock collaborators with no account
selected yet (witness state). -/
def wAuth : Sys :=
  { atm := { cardNumber := "CARD-1234", authenticated := true, selectedAccount := "" },
    bank := mockBank, disp := mockDispenser }

/-- A session over the mock collaborators with an account selected that the
gateway does not know (witness state). -/
def wUnknown : Sys :=
  { atm := { cardNumber := "CARD-1234", authenticated := true, selectedAccount := "ACC-999" },
    bank := mockBank, disp := mockDispenser }

/-! ## Theorems -/

/-- C6: `ejectCard` never errors in any session state (it is a total function
into `Sys`), always clears `cardNumber`, `authenticated` and `selectedAccount`
(returning the session to Idle), and is idempotent: ejecting twice yields the
same state as ejecting once. -/
theorem ejectCard_resets_idempotent (s : Sys) :
    (ATMController.ejectCard s).atm.cardNumber = "" ∧
    (ATMController.ejectCard s).atm.authenticated = false ∧
    (ATMController.ejectCard s).atm.selectedAccount = "" ∧
    ATMController.ejectCard (ATMController.ejectCard s) = ATMController.ejectCard s :=
  ⟨rfl, rfl, rfl, rfl⟩

/-- C7: against the mock collaborators, the `main` scenario behaves as
asserted: wrong PIN returns false, right PIN returns true, selecting
`ACC-111` succeeds, the balance reads 100, then 150 after `deposit(50)`,
`withdraw(70)` succeeds leaving balance 80, and `withdraw(200)` fails with
`InsufficientFunds`. -/
theorem mock_scenario_trace :
    scPinWrong.1 = Except.ok false ∧
    scPinRight.1 = Except.ok true ∧
    scSelect.1 = Except.ok () ∧
    (ATMController.getBalance scSelect.2).1 = Except.ok 100 ∧
    scDeposit.1 = Except.ok () ∧
    (ATMController.getBalance scDeposit.2).1 = Except.ok 150 ∧
    scWithdraw.1 = Except.ok () ∧
    (ATMController.getBalance scWithdraw.2.1).1 = Except.ok 80 ∧
    (ATMController.withdraw 200 scWithdraw.2.1).1 = Except.error AtmError.InsufficientFunds :=
  ⟨rfl, rfl, rfl, rfl, rfl, rfl, rfl, rfl, rfl⟩

/-- C2 counterexample: in the fresh session (no account selected),
`deposit(-5)` fails with `NoAccountSelected`, not `InvalidAmount`: the
`selectedAccount` check precedes the amount check. -/
theorem deposit_neg_no_account_cex :
    (ATMController.deposit (-5) sysMock).1 = Except.error AtmError.NoAccountSelected ∧
    (ATMController.withdraw 0 sysMock).1 = Except.error AtmError.NoAccountSelected ∧
    (ATMController.deposit (-5) sysMock).1 ≠ Except.error AtmError.InvalidAmount := by
  refine ⟨rfl, rfl, ?_⟩
  decide

/-- C2 amended: when an account is selected, `deposit(-5)` and `withdraw(0)`
fail with `InvalidAmount` regardless of card or authentication state; when no
account is selected, both fail with `NoAccountSelected` instead (the account
check runs first). -/
theorem invalid_amount_when_account_selected (s : Sys) :
    (s.atm.selectedAccount ≠ "" →
      (ATMController.deposit (-5) s).1 = Except.error AtmError.InvalidAmount ∧
      (ATMController.withdraw 0 s).1 = Except.error AtmError.InvalidAmount) ∧
    (s.atm.selectedAccount = "" →
      (ATMController.deposit (-5) s).1 = Except.error AtmError.NoAccountSelected ∧
      (ATMController.withdraw 0 s).1 = Except.error AtmError.NoAccountSelected) := by
  constructor
  · intro h
    constructor
    · simp [ATMController.deposit, h]
    · simp [ATMController.withdraw, h]
  · intro h
    constructor
    · simp [ATMController.deposit, h]
    · simp [ATMController.withdraw, h]

/-- C2 witness: at the concrete selected-account state `wSel`, `deposit(-5)`
and `withdraw(0)` both fail with `InvalidAmount`. -/
theorem invalid_amount_when_account_selected_witness :
    (ATMController.deposit (-5) wSel).1 = Except.error AtmError.InvalidAmount ∧
    (ATMController.withdraw 0 wSel).1 = Except.error AtmError.InvalidAmount :=
  (invalid_amount_when_account_selected wSel).1 (by decide)

/-- C1 counterexample: insert card, authenticate with the right PIN, select
`ACC-111`, then re-enter a wrong PIN: `authenticated` becomes false while
`selectedAccount` stays `"ACC-111"`, violating the claimed invariant. -/
theorem selected_nonempty_auth_false_cex :
    (runOps [Op.insertCard, Op.enterPin "4321", Op.selectAccount "ACC-111",
             Op.enterPin "0000"] sysMock).atm =
      { cardNumber := "CARD-1234", authenticated := false, selectedAccount := "ACC-111" } ∧
    sessionInv (runOps [Op.insertCard, Op.enterPin "4321", Op.selectAccount "ACC-111",
             Op.enterPin "0000"] sysMock).atm = false :=
  ⟨rfl, rfl⟩

/-- C9: in an authenticated session, `selectAccount("")` succeeds, and the
resulting state has an empty `selectedAccount`, so every subsequent
`getBalance`, `deposit` or `withdraw` fails with `NoAccountSelected`: the
empty string is indistinguishable from having selected no account. -/
theorem selectAccount_empty_string (s : Sys) (h : s.atm.authenticated = true) :
    (ATMController.selectAccount "" s).1 = Except.ok () ∧
    ((ATMController.selectAccount "" s).2).atm.selectedAccount = "" ∧
    (∀ amt : Int,
      (ATMController.getBalance (ATMController.selectAccount "" s).2).1 =
        Except.error AtmError.NoAccountSelected ∧
      (ATMController.deposit amt (ATMController.selectAccount "" s).2).1 =
        Except.error AtmError.NoAccountSelected ∧
      (ATMController.withdraw amt (ATMController.selectAccount "" s).2).1 =
        Except.error AtmError.NoAccountSelected) := by
  refine ⟨?_, ?_, ?_⟩
  · simp [ATMController.selectAccount, h]
  · simp [ATMController.selectAccount, h]
  · intro amt
    refine ⟨?_, ?_, ?_⟩
    · simp [ATMController.selectAccount, ATMController.getBalance, h]
    · simp [ATMController.selectAccount, ATMController.deposit, h]
    · simp [ATMController.selectAccount, ATMController.withdraw, h]

/-- C9 witness: at the concrete authenticated state `wAuth`,
`selectAccount("")` succeeds and `getBalance`, `deposit(10)`, `withdraw(10)`
then all fail with `NoAccountSelected`. -/
theorem selectAccount_empty_string_witness :
    (ATMController.selectAccount "" wAuth).1 = Except.ok () ∧
    (ATMController.getBalance (ATMController.selectAccount "" wAuth).2).1 =
      Except.error AtmError.NoAccountSelected ∧
    (ATMController.deposit 10 (ATMController.selectAccount "" wAuth).2).1 =
      Except.error AtmError.NoAccountSelected ∧
    (ATMController.withdraw 10 (ATMController.selectAccount "" wAuth).2).1 =
      Except.error AtmError.NoAccountSelected :=
  ⟨(selectAccount_empty_string wAuth rfl).1,
   ((selectAccount_empty_string wAuth rfl).2.2 10).1,
   ((selectAccount_empty_string wAuth rfl).2.2 10).2.1,
   ((selectAccount_empty_string wAuth rfl).2.2 10).2.2⟩

/-- Updating a key that is absent from the map stores `f dflt` at that key
(the `operator[]` default-insert path). -/
theorem mapFind_mapUpsert_absent {α : Type} (m : List (String × α)) (k : String)
    (f : α → α) (dflt : α) (hm : mapFind m k = none) :
    mapFind (mapUpsert m k f dflt) k = some (f dflt) := by
  induction m with
  | nil => simp [mapFind, mapUpsert]
  | cons kv rest ih =>
    obtain ⟨k', v⟩ := kv
    by_cases hk : k' = k
    · rw [mapFind, if_pos hk] at hm
      exact absurd hm (by simp)
    · rw [mapFind, if_neg hk] at hm
      rw [mapUpsert, if_neg hk, mapFind, if_neg hk]
      exact ih hm

/-- C10: when the selected account is absent from the mock gateway's balance
map, `getBalance` and `withdraw` (positive amount) propagate the gateway's
unknown-account failure — `withdraw` without debiting anything (the state is
returned unchanged) — whereas `deposit` with a positive amount succeeds and
silently creates the account with balance equal to the deposited amount. -/
theorem unknown_account_behavior (s : Sys) (amt : Int)
    (hsel : s.atm.selectedAccount ≠ "")
    (habs : mapFind s.bank.balances s.atm.selectedAccount = none)
    (hpos : 0 < amt) :
    (ATMController.getBalance s).1 = Except.error AtmError.UnknownAccount ∧
    ATMController.withdraw amt s = (Except.error AtmError.UnknownAccount, s, []) ∧
    (ATMController.deposit amt s).1 = Except.ok () ∧
    mapFind ((ATMController.deposit amt s).2).bank.balances s.atm.selectedAccount =
      some amt := by
  refine ⟨?_, ?_, ?_, ?_⟩
  · simp [ATMController.getBalance, MockBankGateway.getBalance, hsel, habs]
  · simp [ATMController.withdraw, MockBankGateway.getBalance, hsel, habs,
          not_le.mpr hpos]
  · simp [ATMController.deposit, hsel, not_le.mpr hpos]
  · simp only [ATMController.deposit, if_neg hsel, if_neg (not_le.mpr hpos)]
    simpa [MockBankGateway.credit] using
      mapFind_mapUpsert_absent s.bank.balances s.atm.selectedAccount
        (fun v => v + amt) 0 habs

/-- C10 witness: at the concrete state `wUnknown` (selected account
`ACC-999`, unknown to the mock gateway), `getBalance` and `withdraw(5)` fail
with `UnknownAccount` and `deposit(5)` creates the account with balance 5. -/
theorem unknown_account_behavior_witness :
    (ATMController.getBalance wUnknown).1 = Except.error AtmError.UnknownAccount ∧
    ATMController.withdraw 5 wUnknown = (Except.error AtmError.UnknownAccount, wUnknown, []) ∧
    (ATMController.deposit 5 wUnknown).1 = Except.ok () ∧
    mapFind ((ATMController.deposit 5 wUnknown).2).bank.balances "ACC-999" = some 5 :=
  unknown_account_behavior wUnknown 5 (by decide) (by decide) (by decide)

/-- C5: `enterPin` fails with `NoCardInserted` exactly when no card
identifier is held; otherwise it returns the gateway's `validatePin` result,
storing it in `authenticated` and changing nothing else; and a false result
leaves the card identifier in place, so a subsequent `enterPin` with the
card's registered PIN returns true for the same card. -/
theorem enterPin_spec (s : Sys) (pin : String) :
    ((ATMController.enterPin pin s).1 = Except.error AtmError.NoCardInserted ↔
      s.atm.cardNumber = "") ∧
    (s.atm.cardNumber ≠ "" →
      ATMController.enterPin pin s =
        (Except.ok (MockBankGateway.validatePin s.bank s.atm.cardNumber pin),
         { s with atm := { s.atm with
             authenticated := MockBankGateway.validatePin s.bank s.atm.cardNumber pin } })) ∧
    (∀ p : String, (ATMController.enterPin pin s).1 = Except.ok false →
      mapFind s.bank.pins s.atm.cardNumber = some p →
      ((ATMController.enterPin pin s).2.atm.cardNumber = s.atm.cardNumber ∧
       (ATMController.enterPin p (ATMController.enterPin pin s).2).1 = Except.ok true)) := by
  by_cases hc : s.atm.cardNumber = ""
  · refine ⟨by simp [ATMController.enterPin, hc], fun h => absurd hc h, ?_⟩
    intro p hres _
    rw [ATMController.enterPin, if_pos hc] at hres
    exact absurd hres (by simp)
  · refine ⟨by simp [ATMController.enterPin, hc], fun _ => by rw [ATMController.enterPin, if_neg hc], ?_⟩
    intro p _ hpins
    refine ⟨by rw [ATMController.enterPin, if_neg hc], ?_⟩
    simp [ATMController.enterPin, hc, MockBankGateway.validatePin, hpins]

/-- C5 witness: in the scenario state after `insertCard`, a wrong PIN
(`"0000"`) returns false, and re-entering the registered PIN (`"4321"`)
afterwards returns true for the same card. -/
theorem enterPin_spec_witness :
    (ATMController.enterPin "0000" scInsert).2.atm.cardNumber = scInsert.atm.cardNumber ∧
    (ATMController.enterPin "4321" (ATMController.enterPin "0000" scInsert).2).1 =
      Except.ok true :=
  (enterPin_spec scInsert "0000").2.2 "4321" (by decide) (by decide)

/-- C4: in every successful `withdraw`, the side-effecting collaborator calls
are exactly `bank.debit` then `dispenser.dispenseCash`, in that order; and no
execution of `withdraw` ever dispenses cash without the debit already issued
before it (every trace containing a dispense event is the debit-then-dispense
trace). -/
theorem withdraw_debit_before_dispense (amount : Int) (s : Sys) :
    ((ATMController.withdraw amount s).1 = Except.ok () →
      (ATMController.withdraw amount s).2.2 =
        [Ev.evDebit s.atm.selectedAccount amount, Ev.evDispense amount]) ∧
    (Ev.evDispense amount ∈ (ATMController.withdraw amount s).2.2 →
      (ATMController.withdraw amount s).2.2 =
        [Ev.evDebit s.atm.selectedAccount amount, Ev.evDispense amount]) := by
  unfold ATMController.withdraw
  split
  · simp
  · split
    · simp
    · split
      · simp
      · split
        · simp
        · split
          · simp
          · dsimp only
            split
            · simp
            · simp

/-- C4 witness: the scenario's successful `withdraw(70)` issues exactly the
debit of `ACC-111` and then the dispense of 70. -/
theorem withdraw_debit_before_dispense_witness :
    (ATMController.withdraw 70 scDeposit.2).2.2 =
      [Ev.evDebit "ACC-111" 70, Ev.evDispense 70] :=
  (withdraw_debit_before_dispense 70 scDeposit.2).1 (by decide)

/-- C3: `withdraw` checks its failure conditions in source order: no account,
then non-positive amount, then (once the gateway returns a balance)
`InsufficientFunds` exactly when `amount > bal`, then `InsufficientCash`
exactly when the dispenser cannot cover the amount, and otherwise succeeds. -/
theorem withdraw_error_precedence (s : Sys) (amount : Int) :
    (s.atm.selectedAccount = "" →
      ATMController.withdraw amount s = (Except.error AtmError.NoAccountSelected, s, [])) ∧
    (s.atm.selectedAccount ≠ "" → amount ≤ 0 →
      ATMController.withdraw amount s = (Except.error AtmError.InvalidAmount, s, [])) ∧
    (∀ bal : Int, s.atm.selectedAccount ≠ "" → 0 < amount →
      MockBankGateway.getBalance s.bank s.atm.selectedAccount = Except.ok bal →
      (((ATMController.withdraw amount s).1 = Except.error AtmError.InsufficientFunds ↔
          bal < amount) ∧
       (amount ≤ bal →
         ((ATMController.withdraw amount s).1 = Except.error AtmError.InsufficientCash ↔
           MockCashDispenser.hasCash s.disp amount = false)) ∧
       (amount ≤ bal → MockCashDispenser.hasCash s.disp amount = true →
         (ATMController.withdraw amount s).1 = Except.ok ()))) := by
  refine ⟨?_, ?_, ?_⟩
  · intro h
    simp [ATMController.withdraw, h]
  · intro h hle
    simp [ATMController.withdraw, h, hle]
  · intro bal hsel hpos hbal
    have hns : ¬ amount ≤ 0 := not_le.mpr hpos
    refine ⟨?_, ?_, ?_⟩
    · by_cases hb : bal < amount
      · simp [ATMController.withdraw, hsel, hns, hbal, hb]
      · have hble : amount ≤ bal := not_lt.mp hb
        by_cases hcash : MockCashDispenser.hasCash s.disp amount = true
        · have hcle : amount ≤ s.disp.cashOnHand := by
            simpa [MockCashDispenser.hasCash] using hcash
          simp [ATMController.withdraw, hsel, hns, hbal, hb, hcash,
                MockCashDispenser.dispenseCash, not_lt.mpr hcle]
        · simp [ATMController.withdraw, hsel, hns, hbal, hb, hcash]
    · intro hble
      by_cases hcash : MockCashDispenser.hasCash s.disp amount = true
      · have hcle : amount ≤ s.disp.cashOnHand := by
          simpa [MockCashDispenser.hasCash] using hcash
        simp [ATMController.withdraw, hsel, hns, hbal, not_lt.mpr hble, hcash,
              MockCashDispenser.dispenseCash, not_lt.mpr hcle]
      · simp [ATMController.withdraw, hsel, hns, hbal, not_lt.mpr hble, hcash]
    · intro hble hcash
      have hcle : amount ≤ s.disp.cashOnHand := by
        simpa [MockCashDispenser.hasCash] using hcash
      simp [ATMController.withdraw, hsel, hns, hbal, not_lt.mpr hble, hcash,
            MockCashDispenser.dispenseCash, not_lt.mpr hcle]

/-- C3 witness: in the scenario state with balance 150, `withdraw(70)`
succeeds and `withdraw(200)` fails with `InsufficientFunds`. -/
theorem withdraw_error_precedence_witness :
    (ATMController.withdraw 70 scDeposit.2).1 = Except.ok () ∧
    ((ATMController.withdraw 200 scWithdraw.2.1).1 =
        Except.error AtmError.InsufficientFunds ↔ (80 : Int) < 200) :=
  ⟨((withdraw_error_precedence scDeposit.2 70).2.2 150 (by decide) (by decide)
      (by decide)).2.2 (by decide) (by decide),
   ((withdraw_error_precedence scWithdraw.2.1 200).2.2 80 (by decide) (by decide)
      (by decide)).1⟩

/-- `getBalance` never mutates the system (both its branches return the input
state). -/
theorem getBalance_state (s : Sys) : (ATMController.getBalance s).2 = s := by
  unfold ATMController.getBalance
  split
  · rfl
  · split <;> rfl

/-- `deposit` never changes the controller's session fields (only the bank's
ledger). -/
theorem deposit_atm (amount : Int) (s : Sys) :
    ((ATMController.deposit amount s).2).atm = s.atm := by
  unfold ATMController.deposit
  split
  · rfl
  · split <;> rfl

/-- `withdraw` never changes the controller's session fields (only the bank's
ledger and the dispenser's stock). -/
theorem withdraw_atm (amount : Int) (s : Sys) :
    ((ATMController.withdraw amount s).2.1).atm = s.atm := by
  unfold ATMController.withdraw
  split
  · rfl
  · split
    · rfl
    · split
      · rfl
      · split
        · rfl
        · split
          · rfl
          · dsimp only
            split <;> rfl

/-- C8: whenever an operation reports an error, the session fields
(`cardNumber`, `authenticated`, `selectedAccount`) are exactly what they were
before the call; the only session change on an unsuccessful outcome is the
specified one — an `enterPin` returning false stores `authenticated = false`
without clearing the card or the selection. -/
theorem error_leaves_session_unchanged (op : Op) (s : Sys) :
    (∀ e : AtmError, (runOp op s).1 = Except.error e → ((runOp op s).2).atm = s.atm) ∧
    (∀ pin : String, (ATMController.enterPin pin s).1 = Except.ok false →
      ((ATMController.enterPin pin s).2).atm = { s.atm with authenticated := false }) := by
  constructor
  · intro e herr
    cases op with
    | insertCard => exact absurd herr (by simp [runOp])
    | enterPin pin =>
      by_cases hc : s.atm.cardNumber = ""
      · simp [runOp, ATMController.enterPin, hc]
      · exact absurd herr (by simp [runOp, ATMController.enterPin, hc])
    | selectAccount a =>
      by_cases ha : s.atm.authenticated = false
      · simp [runOp, ATMController.selectAccount, ha]
      · exact absurd herr (by simp [runOp, ATMController.selectAccount, ha])
    | getBalance =>
      rcases hgb : ATMController.getBalance s with ⟨r, s'⟩
      have hs : s' = s := by
        have h := getBalance_state s
        rw [hgb] at h
        exact h
      cases r <;> simp [runOp, hgb, hs]
    | deposit n =>
      simpa [runOp] using deposit_atm n s
    | withdraw n =>
      rcases hw : ATMController.withdraw n s with ⟨r, s', tr⟩
      have hs : s'.atm = s.atm := by
        have h := withdraw_atm n s
        rw [hw] at h
        exact h
      simp [runOp, hw, hs]
    | ejectCard => exact absurd herr (by simp [runOp])
  · intro pin hok
    by_cases hc : s.atm.cardNumber = ""
    · rw [ATMController.enterPin, if_pos hc] at hok
      exact absurd hok (by simp)
    · rw [ATMController.enterPin, if_neg hc] at hok
      simp only at hok
      have hv : MockBankGateway.validatePin s.bank s.atm.cardNumber pin = false := by
        simpa using hok
      rw [ATMController.enterPin, if_neg hc]
      simp [hv]

/-- C8 witness: `withdraw(1)` on the fresh mock session errors
(`NoAccountSelected`) and leaves the session fields untouched. -/
theorem error_leaves_session_unchanged_witness :
    ((runOp (Op.withdraw 1) sysMock).2).atm = sysMock.atm :=
  (error_leaves_session_unchanged (Op.withdraw 1) sysMock).1
    AtmError.NoAccountSelected (by decide)

/-- `runOp` on `getBalance` returns the system unchanged. -/
theorem runOp_getBalance_state (s : Sys) : (runOp Op.getBalance s).2 = s := by
  rcases hgb : ATMController.getBalance s with ⟨r, s'⟩
  have hs2 : s' = s := by
    have h := getBalance_state s
    rw [hgb] at h
    exact h
  cases r <;> simp [runOp, hgb, hs2]

/-- `runOp` on `deposit` leaves the session fields unchanged. -/
theorem runOp_deposit_atm (n : Int) (s : Sys) :
    ((runOp (Op.deposit n) s).2).atm = s.atm :=
  deposit_atm n s

/-- `runOp` on `withdraw` leaves the session fields unchanged. -/
theorem runOp_withdraw_atm (n : Int) (s : Sys) :
    ((runOp (Op.withdraw n) s).2).atm = s.atm := by
  rcases hw : ATMController.withdraw n s with ⟨r, s', tr⟩
  have hs2 : s'.atm = s.atm := by
    have h := withdraw_atm n s
    rw [hw] at h
    exact h
  simp [runOp, hw, hs2]

/-- A sequence without any `enterPin` trivially has no `enterPin` after a
`selectAccount`. -/
theorem noPinAfterSelect_of_no_pin :
    ∀ l : List Op, hasEnterPin l = false → noEnterPinAfterSelect l = true := by
  intro l
  induction l with
  | nil => intro _; rfl
  | cons op rest ih =>
    intro h
    cases op
    case enterPin pin => exact absurd h (by simp [hasEnterPin])
    case selectAccount a =>
      have hr : hasEnterPin rest = false := by simpa [hasEnterPin] using h
      simp [noEnterPinAfterSelect, hr]
    all_goals exact ih h

/-- Induction core for C1: the invariant `selectedAccount ≠ "" →
authenticated` is preserved along any call sequence in which no `enterPin`
follows a `selectAccount`, provided it holds initially and the selection is
empty whenever an `enterPin` is still to come. -/
theorem runOps_inv_aux :
    ∀ (ops : List Op) (s : Sys),
      sessionInv s.atm = true →
      (hasEnterPin ops = true → s.atm.selectedAccount = "") →
      noEnterPinAfterSelect ops = true →
      sessionInv (runOps ops s).atm = true := by
  intro ops
  induction ops with
  | nil =>
    intro s hinv _ _
    simpa [runOps] using hinv
  | cons op rest ih =>
    intro s hinv hsel hnp
    rw [runOps]
    cases op with
    | insertCard =>
      refine ih _ ?_ ?_ hnp
      · simp [runOp, ATMController.insertCard, sessionInv]
      · intro _
        simp [runOp, ATMController.insertCard]
    | enterPin pin =>
      have hs : s.atm.selectedAccount = "" := hsel rfl
      by_cases hc : s.atm.cardNumber = ""
      · refine ih _ ?_ ?_ hnp
        · simpa [runOp, ATMController.enterPin, hc] using hinv
        · intro _
          simpa [runOp, ATMController.enterPin, hc] using hs
      · refine ih _ ?_ ?_ hnp
        · simp [runOp, ATMController.enterPin, hc, sessionInv, hs]
        · intro _
          simp [runOp, ATMController.enterPin, hc, hs]
    | selectAccount a =>
      have hrest : hasEnterPin rest = false := by
        have h := hnp
        simp [noEnterPinAfterSelect] at h
        exact h
      have hnp' : noEnterPinAfterSelect rest = true :=
        noPinAfterSelect_of_no_pin rest hrest
      by_cases ha : s.atm.authenticated = false
      · refine ih _ ?_ ?_ hnp'
        · simpa [runOp, ATMController.selectAccount, ha] using hinv
        · intro hcon
          rw [hrest] at hcon
          exact absurd hcon (by simp)
      · have ha' : s.atm.authenticated = true := by
          cases h : s.atm.authenticated
          · exact absurd h ha
          · rfl
        refine ih _ ?_ ?_ hnp'
        · simp [runOp, ATMController.selectAccount, ha, sessionInv, ha']
        · intro hcon
          rw [hrest] at hcon
          exact absurd hcon (by simp)
    | getBalance =>
      rw [runOp_getBalance_state]
      exact ih s hinv hsel hnp
    | deposit n =>
      refine ih _ ?_ ?_ hnp
      · rw [runOp_deposit_atm n s]
        exact hinv
      · intro hc
        rw [runOp_deposit_atm n s]
        exact hsel hc
    | withdraw n =>
      refine ih _ ?_ ?_ hnp
      · rw [runOp_withdraw_atm n s]
        exact hinv
      · intro hc
        rw [runOp_withdraw_atm n s]
        exact hsel hc
    | ejectCard =>
      refine ih _ ?_ ?_ hnp
      · simp [runOp, ATMController.ejectCard, sessionInv]
      · intro _
        simp [runOp, ATMController.ejectCard]

/-- C1 amended: from a fresh controller over any collaborator state, the
invariant "`selectedAccount` non-empty implies `authenticated`" holds after
every call sequence in which no `enterPin` call occurs after a
`selectAccount` call.  (As stated over all sequences the claim fails: a
failed `enterPin` after an account was selected sets `authenticated` to
false while leaving `selectedAccount` non-empty.) -/
theorem sessionInv_holds_without_pin_after_select
    (ops : List Op) (b : Bank) (d : Dispenser)
    (h : noEnterPinAfterSelect ops = true) :
    sessionInv (runOps ops (sysInit b d)).atm = true :=
  runOps_inv_aux ops (sysInit b d) rfl (fun _ => rfl) h

/-- C1 witness: the invariant holds after the concrete sequence insert, PIN,
select (which contains no `enterPin` after the `selectAccount`). -/
theorem sessionInv_holds_without_pin_after_select_witness :
    sessionInv (runOps [Op.insertCard, Op.enterPin "4321", Op.selectAccount "ACC-111"]
      (sysInit mockBank mockDispenser)).atm = true :=
  sessionInv_holds_without_pin_after_select
    [Op.insertCard, Op.enterPin "4321", Op.selectAccount "ACC-111"]
    mockBank mockDispenser (by decide)
